import Mathlib

/-!
Shallow embedding of the auth state machine in src/app.tsx
(AuthProvider: persistAuth, register, login, logout, the useState
initializers that restore a session on mount, and the useEffect that
mirrors the users list to localStorage).

The program keeps three pieces of in-memory state (users list, current
public user, current token) and reads/writes three keys in two browser
storage backends: LOCAL_USERS_KEY (localStorage only), AUTH_USER_KEY and
AUTH_TOKEN_KEY (localStorage or sessionStorage).  We model each backend as
a record with one slot per key.  Serialized JSON values are modelled at
their parsed type: JSON.stringify/JSON.parse round-trip is the identity on
the records the program stores, and JSON.stringify of an object is never
the empty string, so JS truthiness on a stored user string coincides with
Option.isSome.  Tokens are raw strings, so for them JS truthiness (where
the empty string is falsy) is modelled explicitly by jsTruthy/jsOrNull.

Tokens are generated as 't_' + Math.random().toString(36).slice(2); the
nondeterministic suffix is a parameter of the transitions, so a generated
token is "t_" ++ s for an arbitrary s.
-/

namespace ReactAuth

/-- An account record as stored in the users list: { username, password, name }. -/
structure Account where
  username : String
  password : String
  name : String
deriving DecidableEq, Repr

/-- The redacted public user: { username, name } — by construction there is
no password field. -/
structure PublicUser where
  username : String
  name : String
deriving DecidableEq, Repr

/-- One storage backend (localStorage or sessionStorage), one slot per key
the program uses: AUTH_USER_KEY, AUTH_TOKEN_KEY, LOCAL_USERS_KEY. -/
structure Backend where
  authUser : Option PublicUser
  authToken : Option String
  usersVal : Option (List Account)
deriving DecidableEq, Repr

/-- The full program state: the three useState cells of AuthProvider plus
the two storage backends. -/
structure St where
  users : List Account
  user : Option PublicUser
  token : Option String
  localStorage : Backend
  sessionStorage : Backend
deriving DecidableEq, Repr

/-- The result shape { success, message? } returned by register and login. -/
structure AuthResult where
  success : Bool
  message : Option String
deriving DecidableEq, Repr

/-- JS truthiness of a nullable string: null and the empty string are falsy. -/
def jsTruthy : Option String → Bool
  | none => false
  | some s => s ≠ ""

/-- The expression a || b || null on nullable strings (used by the token
initializer): first truthy operand, else null. -/
def jsOrNull (a b : Option String) : Option String :=
  if jsTruthy a then a else if jsTruthy b then b else none

/-- persistAuth (src/app.tsx lines 64-80), failure-free storage: with
remember, write the pair to localStorage and remove it from
sessionStorage; otherwise the reverse. -/
def persistAuth (st : St) (userObj : PublicUser) (tokenStr : String)
    (remember : Bool) : St :=
  if remember then
    { st with
      localStorage := { st.localStorage with
        authUser := some userObj, authToken := some tokenStr }
      sessionStorage := { st.sessionStorage with
        authUser := none, authToken := none } }
  else
    { st with
      sessionStorage := { st.sessionStorage with
        authUser := some userObj, authToken := some tokenStr }
      localStorage := { st.localStorage with
        authUser := none, authToken := none } }

/-- register (src/app.tsx lines 83-99).  !username / !password are the JS
falsiness checks, i.e. the empty string for string inputs.  On success the
users-persistence useEffect (lines 55-61) fires because setUsers changed
the list, so the new list is also written to localStorage's users slot.
The fresh token is a parameter. -/
def register (st : St) (username password name : String) (remember : Bool)
    (tokenStr : String) : St × AuthResult :=
  if username = "" ∨ password = "" then
    (st, ⟨false, some "Provide username and password"⟩)
  else if st.users.any (fun u => u.username == username) then
    (st, ⟨false, some "User already exists"⟩)
  else
    let newUser : Account := ⟨username, password, name⟩
    let newUsers := st.users ++ [newUser]
    let publicUser : PublicUser := ⟨newUser.username, newUser.name⟩
    let st1 : St :=
      { st with
        users := newUsers
        localStorage := { st.localStorage with usersVal := some newUsers }
        user := some publicUser
        token := some tokenStr }
    (persistAuth st1 publicUser tokenStr remember, ⟨true, none⟩)

/-- login (src/app.tsx lines 102-113): linear find with exact equality on
username and password; failure result on no match, otherwise set the
public user and a fresh token and persist. -/
def login (st : St) (username password : String) (remember : Bool)
    (tokenStr : String) : St × AuthResult :=
  match st.users.find? (fun u => u.username == username && u.password == password) with
  | none => (st, ⟨false, some "Invalid credentials"⟩)
  | some found =>
    let publicUser : PublicUser := ⟨found.username, found.name⟩
    let st1 : St := { st with user := some publicUser, token := some tokenStr }
    (persistAuth st1 publicUser tokenStr remember, ⟨true, none⟩)

/-- logout (src/app.tsx lines 116-123), failure-free storage: clear the
in-memory user and token and remove the auth pair from both backends. -/
def logout (st : St) : St :=
  { st with
    user := none
    token := none
    sessionStorage := { st.sessionStorage with authUser := none, authToken := none }
    localStorage := { st.localStorage with authUser := none, authToken := none } }

/-- isAuthenticated (src/app.tsx line 126): !!token, i.e. JS truthiness of
the current token. -/
def isAuthenticated (st : St) : Bool := jsTruthy st.token

/-- Mounting AuthProvider (src/app.tsx lines 25-61): the three useState
initializers restore state from storage (users from localStorage, user and
token preferring localStorage with the || fallback to sessionStorage), and
the users useEffect then writes the users list back to localStorage. -/
def mount (lo se : Backend) : St :=
  let users := lo.usersVal.getD []
  { users := users
    user := if lo.authUser.isSome then lo.authUser else se.authUser
    token := jsOrNull lo.authToken se.authToken
    localStorage := { lo with usersVal := some users }
    sessionStorage := se }

/-- An empty storage backend (fresh browser profile). -/
def emptyBackend : Backend := ⟨none, none, none⟩

/-- The initial state: AuthProvider mounted over empty storage. -/
def st0 : St := mount emptyBackend emptyBackend

/-- States reachable by the program with failure-free storage: the initial
mount, the three operations (with generated tokens of the shape
"t_" ++ suffix), and a remount (page reload) over the current storage. -/
inductive Reachable : St → Prop
  | init : Reachable st0
  | regStep (st : St) (h : Reachable st)
      (username password name : String) (remember : Bool) (s : String) :
      Reachable (register st username password name remember ("t_" ++ s)).1
  | loginStep (st : St) (h : Reachable st)
      (username password : String) (remember : Bool) (s : String) :
      Reachable (login st username password remember ("t_" ++ s)).1
  | logoutStep (st : St) (h : Reachable st) : Reachable (logout st)
  | reloadStep (st : St) (h : Reachable st) :
      Reachable (mount st.localStorage st.sessionStorage)

/-- A backend holds no auth pair at all. -/
def pairClear (b : Backend) : Prop := b.authUser = none ∧ b.authToken = none

/-- The session/storage coupling invariant: with no token, no user and both
backends clear; with a token, the token is nonempty and the current pair
sits in exactly one backend while the other is clear. -/
def SessionInv (st : St) : Prop :=
  (st.token = none →
    st.user = none ∧ pairClear st.localStorage ∧ pairClear st.sessionStorage) ∧
  (∀ t, st.token = some t → t ≠ "" ∧ ∃ u, st.user = some u ∧
    ((st.localStorage.authUser = some u ∧ st.localStorage.authToken = some t ∧
        pairClear st.sessionStorage) ∨
     (st.sessionStorage.authUser = some u ∧ st.sessionStorage.authToken = some t ∧
        pairClear st.localStorage)))

/-!
Exception-aware model of the storage calls.  Browser storage access can
throw (quota exceeded, storage disabled).  Each primitive call is modelled
with a per-primitive failure flag; an operation threads (state, thrown?)
through its primitives, stopping at the first throw.  A try/catch block
(console.error only logs) keeps the partial state and swallows the
exception.  persistAuth and the users useEffect wrap their bodies in
try/catch, the useState initializers each have their own try/catch, and
logout has none (src/app.tsx lines 116-123).
-/

/-- Which storage primitives throw in the current environment. -/
structure StorageFail where
  localSet : Bool
  localRemove : Bool
  localGet : Bool
  sessionSet : Bool
  sessionRemove : Bool
  sessionGet : Bool
deriving DecidableEq, Repr

/-- State paired with a pending-exception flag. -/
abbrev ExSt := St × Bool

/-- Sequence a primitive after a possibly-thrown computation: once an
exception is pending, later primitives do not run. -/
def thenDo (p : ExSt) (f : St → ExSt) : ExSt := if p.2 then p else f p.1

/-- A try { } catch (err) { console.error(...) } block: the partial state
is kept and the exception is swallowed. -/
def tryCatch (p : ExSt) : ExSt := (p.1, false)

/-- localStorage.setItem(AUTH_USER_KEY, JSON.stringify(userObj)). -/
def lSetAuthUser (fl : StorageFail) (u : PublicUser) (st : St) : ExSt :=
  if fl.localSet then (st, true)
  else ({ st with localStorage := { st.localStorage with authUser := some u } }, false)

/-- localStorage.setItem(AUTH_TOKEN_KEY, tokenStr). -/
def lSetAuthToken (fl : StorageFail) (t : String) (st : St) : ExSt :=
  if fl.localSet then (st, true)
  else ({ st with localStorage := { st.localStorage with authToken := some t } }, false)

/-- localStorage.setItem(LOCAL_USERS_KEY, JSON.stringify(users)). -/
def lSetUsers (fl : StorageFail) (us : List Account) (st : St) : ExSt :=
  if fl.localSet then (st, true)
  else ({ st with localStorage := { st.localStorage with usersVal := some us } }, false)

/-- localStorage.removeItem(AUTH_USER_KEY). -/
def lRemAuthUser (fl : StorageFail) (st : St) : ExSt :=
  if fl.localRemove then (st, true)
  else ({ st with localStorage := { st.localStorage with authUser := none } }, false)

/-- localStorage.removeItem(AUTH_TOKEN_KEY). -/
def lRemAuthToken (fl : StorageFail) (st : St) : ExSt :=
  if fl.localRemove then (st, true)
  else ({ st with localStorage := { st.localStorage with authToken := none } }, false)

/-- sessionStorage.setItem(AUTH_USER_KEY, JSON.stringify(userObj)). -/
def sSetAuthUser (fl : StorageFail) (u : PublicUser) (st : St) : ExSt :=
  if fl.sessionSet then (st, true)
  else ({ st with sessionStorage := { st.sessionStorage with authUser := some u } }, false)

/-- sessionStorage.setItem(AUTH_TOKEN_KEY, tokenStr). -/
def sSetAuthToken (fl : StorageFail) (t : String) (st : St) : ExSt :=
  if fl.sessionSet then (st, true)
  else ({ st with sessionStorage := { st.sessionStorage with authToken := some t } }, false)

/-- sessionStorage.removeItem(AUTH_USER_KEY). -/
def sRemAuthUser (fl : StorageFail) (st : St) : ExSt :=
  if fl.sessionRemove then (st, true)
  else ({ st with sessionStorage := { st.sessionStorage with authUser := none } }, false)

/-- sessionStorage.removeItem(AUTH_TOKEN_KEY). -/
def sRemAuthToken (fl : StorageFail) (st : St) : ExSt :=
  if fl.sessionRemove then (st, true)
  else ({ st with sessionStorage := { st.sessionStorage with authToken := none } }, false)

/-- persistAuth with fallible storage: the whole body is inside
try { } catch (src/app.tsx lines 65-79). -/
def persistAuthE (fl : StorageFail) (st : St) (userObj : PublicUser)
    (tokenStr : String) (remember : Bool) : ExSt :=
  tryCatch
    (if remember then
      thenDo (thenDo (thenDo (lSetAuthUser fl userObj st)
        (lSetAuthToken fl tokenStr)) (sRemAuthUser fl)) (sRemAuthToken fl)
    else
      thenDo (thenDo (thenDo (sSetAuthUser fl userObj st)
        (sSetAuthToken fl tokenStr)) (lRemAuthUser fl)) (lRemAuthToken fl))

/-- The users-persistence useEffect with fallible storage: the setItem is
inside try { } catch (src/app.tsx lines 55-61). -/
def persistUsersEffectE (fl : StorageFail) (st : St) : ExSt :=
  tryCatch (lSetUsers fl st.users st)

/-- The user useState initializer with fallible storage (src/app.tsx lines
37-44): try { local || session, parse } catch { return null }.  If the
localStorage read throws, the catch returns null without consulting
sessionStorage. -/
def restoreUserE (fl : StorageFail) (lo se : Backend) : Option PublicUser :=
  if fl.localGet then none
  else match lo.authUser with
    | some u => some u
    | none => if fl.sessionGet then none else se.authUser

/-- The token useState initializer with fallible storage (src/app.tsx
lines 46-52): try { local || session || null } catch { return null }. -/
def restoreTokenE (fl : StorageFail) (lo se : Backend) : Option String :=
  if fl.localGet then none
  else if jsTruthy lo.authToken then lo.authToken
  else if fl.sessionGet then none
  else if jsTruthy se.authToken then se.authToken
  else none

/-- The users useState initializer with fallible storage (src/app.tsx
lines 27-34): try { read, parse } catch { return [] }. -/
def restoreUsersE (fl : StorageFail) (lo : Backend) : List Account :=
  if fl.localGet then [] else lo.usersVal.getD []

/-- Mounting AuthProvider with fallible storage: all three initializers
have their own try/catch, so mounting never propagates an exception. -/
def mountE (fl : StorageFail) (lo se : Backend) : ExSt :=
  ({ users := restoreUsersE fl lo
     user := restoreUserE fl lo se
     token := restoreTokenE fl lo se
     localStorage := lo
     sessionStorage := se }, false)

/-- logout with fallible storage: setUser/setToken (in-memory, cannot
throw), then four removeItem calls with NO try/catch around them
(src/app.tsx lines 116-123). -/
def logoutE (fl : StorageFail) (st : St) : ExSt :=
  thenDo (thenDo (thenDo
    (sRemAuthUser fl { st with user := none, token := none })
    (sRemAuthToken fl)) (lRemAuthUser fl)) (lRemAuthToken fl)

/-! Helper lemmas. -/

/-- A generated token "t_" ++ suffix is never the empty string. -/
theorem token_ne_empty (s : String) : "t_" ++ s ≠ "" := by
  intro h
  have hl := congrArg String.length h
  rw [String.length_append] at hl
  have h2 : "t_".length = 2 := rfl
  have h0 : "".length = 0 := rfl
  rw [h2, h0] at hl
  omega

theorem jsOrNull_some_left {a : String} (h : a ≠ "") (b : Option String) :
    jsOrNull (some a) b = some a := by
  simp [jsOrNull, jsTruthy, h]

theorem jsOrNull_none_some {b : String} (h : b ≠ "") :
    jsOrNull none (some b) = some b := by
  simp [jsOrNull, jsTruthy, h]

/-- After persistAuth from a state whose current pair is (u, t) with t
nonempty, the session/storage invariant holds. -/
theorem sessionInv_persistAuth (st : St) (u : PublicUser) (t : String) (r : Bool)
    (hu : st.user = some u) (ht : st.token = some t) (hne : t ≠ "") :
    SessionInv (persistAuth st u t r) := by
  cases r with
  | false =>
    refine ⟨fun hn => ?_, fun t' ht' => ?_⟩
    · rw [show (persistAuth st u t false).token = st.token from rfl, ht] at hn
      exact absurd hn (by simp)
    · rw [show (persistAuth st u t false).token = st.token from rfl, ht] at ht'
      obtain rfl : t = t' := by injection ht'
      exact ⟨hne, u, by rw [show (persistAuth st u t false).user = st.user from rfl, hu],
        Or.inr ⟨rfl, rfl, rfl, rfl⟩⟩
  | true =>
    refine ⟨fun hn => ?_, fun t' ht' => ?_⟩
    · rw [show (persistAuth st u t true).token = st.token from rfl, ht] at hn
      exact absurd hn (by simp)
    · rw [show (persistAuth st u t true).token = st.token from rfl, ht] at ht'
      obtain rfl : t = t' := by injection ht'
      exact ⟨hne, u, by rw [show (persistAuth st u t true).user = st.user from rfl, hu],
        Or.inl ⟨rfl, rfl, rfl, rfl⟩⟩

/-- Every reachable state satisfies the session/storage invariant. -/
theorem sessionInv_reachable (st : St) (h : Reachable st) : SessionInv st := by
  induction h with
  | init =>
    exact ⟨fun _ => ⟨rfl, ⟨rfl, rfl⟩, ⟨rfl, rfl⟩⟩, fun t ht => by
      simp [st0, mount, emptyBackend, jsOrNull, jsTruthy] at ht⟩
  | regStep st h username password name remember s ih =>
    by_cases h1 : username = "" ∨ password = ""
    · simpa [register, h1] using ih
    · by_cases h2 : st.users.any (fun u => u.username == username) = true
      · simpa [register, h1, h2] using ih
      · rw [show (register st username password name remember ("t_" ++ s)).1 =
            persistAuth
              { st with
                users := st.users ++ [⟨username, password, name⟩]
                localStorage := { st.localStorage with
                  usersVal := some (st.users ++ [⟨username, password, name⟩]) }
                user := some ⟨username, name⟩
                token := some ("t_" ++ s) }
              ⟨username, name⟩ ("t_" ++ s) remember from by
          simp [register, h1, h2]]
        exact sessionInv_persistAuth _ _ _ _ rfl rfl (token_ne_empty s)
  | loginStep st h username password remember s ih =>
    cases hf : st.users.find? (fun u => u.username == username && u.password == password) with
    | none => simpa [login, hf] using ih
    | some a =>
      rw [show (login st username password remember ("t_" ++ s)).1 =
          persistAuth
            { st with user := some ⟨a.username, a.name⟩, token := some ("t_" ++ s) }
            ⟨a.username, a.name⟩ ("t_" ++ s) remember from by
        simp [login, hf]]
      exact sessionInv_persistAuth _ _ _ _ rfl rfl (token_ne_empty s)
  | logoutStep st h ih =>
    exact ⟨fun _ => ⟨rfl, ⟨rfl, rfl⟩, ⟨rfl, rfl⟩⟩, fun t ht => by
      simp [logout] at ht⟩
  | reloadStep st h ih =>
    obtain ⟨ihn, ihs⟩ := ih
    cases htok : st.token with
    | none =>
      obtain ⟨hu, ⟨hlu, hlt⟩, ⟨hsu, hst⟩⟩ := ihn htok
      refine ⟨fun _ => ⟨?_, ⟨?_, ?_⟩, ⟨?_, ?_⟩⟩, fun t ht => ?_⟩
      · simp [mount, hlu, hsu]
      · simp [mount, hlu]
      · simp [mount, hlt]
      · simp [mount, hsu]
      · simp [mount, hst]
      · simp [mount, hlt, hst, jsOrNull, jsTruthy] at ht
    | some t =>
      obtain ⟨hne, u, hu, hcase⟩ := ihs t htok
      cases hcase with
      | inl hc =>
        obtain ⟨hlu, hlt, hsu, hst⟩ := hc
        refine ⟨fun hn => ?_, fun t' ht' => ?_⟩
        · rw [show (mount st.localStorage st.sessionStorage).token =
              jsOrNull st.localStorage.authToken st.sessionStorage.authToken from rfl,
            hlt, jsOrNull_some_left hne] at hn
          exact absurd hn (by simp)
        · rw [show (mount st.localStorage st.sessionStorage).token =
              jsOrNull st.localStorage.authToken st.sessionStorage.authToken from rfl,
            hlt, jsOrNull_some_left hne] at ht'
          obtain rfl : t = t' := by injection ht'
          refine ⟨hne, u, ?_, Or.inl ⟨?_, ?_, ?_, ?_⟩⟩
          · simp [mount, hlu]
          · simp [mount, hlu]
          · simp [mount, hlt]
          · simp [mount, hsu]
          · simp [mount, hst]
      | inr hc =>
        obtain ⟨hsu, hst, hlu, hlt⟩ := hc
        refine ⟨fun hn => ?_, fun t' ht' => ?_⟩
        · rw [show (mount st.localStorage st.sessionStorage).token =
              jsOrNull st.localStorage.authToken st.sessionStorage.authToken from rfl,
            hlt, hst, jsOrNull_none_some hne] at hn
          exact absurd hn (by simp)
        · rw [show (mount st.localStorage st.sessionStorage).token =
              jsOrNull st.localStorage.authToken st.sessionStorage.authToken from rfl,
            hlt, hst, jsOrNull_none_some hne] at ht'
          obtain rfl : t = t' := by injection ht'
          refine ⟨hne, u, ?_, Or.inr ⟨?_, ?_, ?_, ?_⟩⟩
          · simp [mount, hlu, hsu]
          · simp [mount, hsu]
          · simp [mount, hst]
          · simp [mount, hlu]
          · simp [mount, hlt]

/-- persistAuth never changes the users list. -/
theorem persistAuth_users (st : St) (u : PublicUser) (t : String) (r : Bool) :
    (persistAuth st u t r).users = st.users := by
  cases r <;> rfl

/-- find? skips a prefix on which it finds nothing. -/
theorem find?_append_none {α : Type} (p : α → Bool) (l1 l2 : List α)
    (h : l1.find? p = none) : (l1 ++ l2).find? p = l2.find? p := by
  induction l1 with
  | nil => simp
  | cons a l ih =>
    cases hpa : p a with
    | true =>
      rw [List.find?_cons_of_pos _ hpa] at h
      exact absurd h (by simp)
    | false =>
      rw [List.find?_cons_of_neg _ (by simp [hpa])] at h
      rw [List.cons_append, List.find?_cons_of_neg _ (by simp [hpa])]
      exact ih h

/-- register on nonempty fields and a fresh username reduces to appending
the account and activating the session. -/
theorem register_success (st : St) (username password name : String) (remember : Bool)
    (tokenStr : String) (hu : username ≠ "") (hp : password ≠ "")
    (h2 : st.users.any (fun u => u.username == username) = false) :
    register st username password name remember tokenStr =
      (persistAuth
        { st with
          users := st.users ++ [⟨username, password, name⟩]
          localStorage := { st.localStorage with
            usersVal := some (st.users ++ [⟨username, password, name⟩]) }
          user := some ⟨username, name⟩
          token := some tokenStr }
        ⟨username, name⟩ tokenStr remember, ⟨true, none⟩) := by
  have h1 : ¬(username = "" ∨ password = "") := by
    intro h
    cases h with
    | inl h => exact hu h
    | inr h => exact hp h
  simp [register, h1, h2]

/-- A concrete state whose registry holds the single account
("a", "pw", "A"); used as a test state below. -/
def stDup : St := { st0 with users := [⟨"a", "pw", "A"⟩] }

/-! Claim theorems. -/

/-- Claim C1: after persistAuth with remember=true the pair is in
localStorage (the durable backend) and absent from sessionStorage; with
remember=false the reverse; and at every reachable state with an active
session the current user/token pair sits in exactly one backend while the
other holds neither key — never both, never split. -/
theorem activate_xor_backends :
    (∀ (st : St) (u : PublicUser) (tok : String),
      (persistAuth st u tok true).localStorage.authUser = some u ∧
      (persistAuth st u tok true).localStorage.authToken = some tok ∧
      (persistAuth st u tok true).sessionStorage.authUser = none ∧
      (persistAuth st u tok true).sessionStorage.authToken = none) ∧
    (∀ (st : St) (u : PublicUser) (tok : String),
      (persistAuth st u tok false).sessionStorage.authUser = some u ∧
      (persistAuth st u tok false).sessionStorage.authToken = some tok ∧
      (persistAuth st u tok false).localStorage.authUser = none ∧
      (persistAuth st u tok false).localStorage.authToken = none) ∧
    (∀ st : St, Reachable st → ∀ (u : PublicUser) (t : String),
      st.user = some u → st.token = some t →
      ((st.localStorage.authUser = some u ∧ st.localStorage.authToken = some t ∧
          st.sessionStorage.authUser = none ∧ st.sessionStorage.authToken = none) ∨
       (st.sessionStorage.authUser = some u ∧ st.sessionStorage.authToken = some t ∧
          st.localStorage.authUser = none ∧ st.localStorage.authToken = none))) := by
  refine ⟨fun st u tok => ⟨rfl, rfl, rfl, rfl⟩, fun st u tok => ⟨rfl, rfl, rfl, rfl⟩,
    fun st h u t hu ht => ?_⟩
  obtain ⟨-, ihs⟩ := sessionInv_reachable st h
  obtain ⟨-, u', hu', hcase⟩ := ihs t ht
  obtain rfl : u' = u := by
    rw [hu] at hu'
    exact (Option.some.inj hu').symm
  cases hcase with
  | inl hc => exact Or.inl ⟨hc.1, hc.2.1, hc.2.2.1, hc.2.2.2⟩
  | inr hc => exact Or.inr ⟨hc.1, hc.2.1, hc.2.2.1, hc.2.2.2⟩

/-- Witness for C1 at a concrete reachable state: register "alice" with
remember=true from the initial state, then the pair sits in localStorage
and sessionStorage is clear. -/
theorem activate_xor_backends_witness :
    (((register st0 "alice" "pw" "Alice" true ("t_" ++ "abc")).1.localStorage.authUser =
        some ⟨"alice", "Alice"⟩ ∧
      (register st0 "alice" "pw" "Alice" true ("t_" ++ "abc")).1.localStorage.authToken =
        some ("t_" ++ "abc") ∧
      (register st0 "alice" "pw" "Alice" true ("t_" ++ "abc")).1.sessionStorage.authUser = none ∧
      (register st0 "alice" "pw" "Alice" true ("t_" ++ "abc")).1.sessionStorage.authToken = none) ∨
     ((register st0 "alice" "pw" "Alice" true ("t_" ++ "abc")).1.sessionStorage.authUser =
        some ⟨"alice", "Alice"⟩ ∧
      (register st0 "alice" "pw" "Alice" true ("t_" ++ "abc")).1.sessionStorage.authToken =
        some ("t_" ++ "abc") ∧
      (register st0 "alice" "pw" "Alice" true ("t_" ++ "abc")).1.localStorage.authUser = none ∧
      (register st0 "alice" "pw" "Alice" true ("t_" ++ "abc")).1.localStorage.authToken = none)) :=
  activate_xor_backends.2.2 _
    (Reachable.regStep st0 Reachable.init "alice" "pw" "Alice" true "abc")
    ⟨"alice", "Alice"⟩ ("t_" ++ "abc") (by decide) (by decide)

/-- Counterexample to claim C2 as stated: the registry of stDup already
holds username "a", yet registering "a" with an empty password answers
"Provide username and password", not "User already exists" — the
empty-field check runs before the duplicate check. -/
theorem register_dup_message_counterexample :
    stDup.users.any (fun u => u.username == "a") = true ∧
    (register stDup "a" "" "" false "t_x").2 =
      ⟨false, some "Provide username and password"⟩ ∧
    ¬((register stDup "a" "" "" false "t_x").2 = ⟨false, some "User already exists"⟩) := by
  refine ⟨by decide, by decide, by decide⟩

/-- Claim C2 (amended): for every registry state and every register call
with nonempty username and password whose username is already registered,
register answers {success:false, "User already exists"} and the whole
state — users list, both backends, session — is unchanged. -/
theorem register_dup_unchanged (st : St) (username password name : String)
    (remember : Bool) (tokenStr : String) (hu : username ≠ "") (hp : password ≠ "")
    (hdup : st.users.any (fun u => u.username == username) = true) :
    register st username password name remember tokenStr =
      (st, ⟨false, some "User already exists"⟩) := by
  have h1 : ¬(username = "" ∨ password = "") := by
    intro h
    cases h with
    | inl h => exact hu h
    | inr h => exact hp h
  simp [register, h1, hdup]

/-- Witness for the amended C2: registering the existing "a" again with a
different password fails with "User already exists" and changes nothing. -/
theorem register_dup_unchanged_witness :
    register stDup "a" "secret" "B" false "t_x" =
      (stDup, ⟨false, some "User already exists"⟩) :=
  register_dup_unchanged stDup "a" "secret" "B" false "t_x"
    (by decide) (by decide) (by decide)

/-- Counterexample to claim C3 as stated: a password of one space is empty
after trimming, yet register succeeds — the code checks JS falsiness of
the untrimmed password (and the form does not trim passwords), so only the
empty string is rejected. -/
theorem register_blank_password_counterexample :
    (" " : String) ≠ "" ∧ " ".toList.all Char.isWhitespace = true ∧
    (register st0 "bob" " " "" false "t_x").2.success = true := by
  refine ⟨by decide, by decide, by decide⟩

/-- Claim C3 (amended): if the username or the password is the empty
string, register answers {success:false, "Provide username and password"}
and performs no writes at all — the state is returned unchanged. -/
theorem register_empty_fields_noop (st : St) (username password name : String)
    (remember : Bool) (tokenStr : String) (h : username = "" ∨ password = "") :
    register st username password name remember tokenStr =
      (st, ⟨false, some "Provide username and password"⟩) := by
  simp [register, h]

/-- Witness for the amended C3: registering with an empty username fails
with the message and leaves the state untouched. -/
theorem register_empty_fields_noop_witness :
    register stDup "" "pw" "" true "t_x" =
      (stDup, ⟨false, some "Provide username and password"⟩) :=
  register_empty_fields_noop stDup "" "pw" "" true "t_x" (Or.inl rfl)

/-- Claim C4: login fails with "Invalid credentials" exactly when the
linear scan with exact string equality on both fields finds no account;
on a match (necessarily equal on both fields) it succeeds and activates a
session for the matched account (its public user and a fresh token). -/
theorem login_invalid_credentials_iff (st : St) (username password : String)
    (remember : Bool) (tokenStr : String) :
    (st.users.find? (fun u => u.username == username && u.password == password) = none →
      login st username password remember tokenStr =
        (st, ⟨false, some "Invalid credentials"⟩)) ∧
    ((login st username password remember tokenStr).2 =
        ⟨false, some "Invalid credentials"⟩ →
      st.users.find? (fun u => u.username == username && u.password == password) = none) ∧
    (∀ a, st.users.find? (fun u => u.username == username && u.password == password) =
        some a →
      a.username = username ∧ a.password = password ∧
      (login st username password remember tokenStr).2 = ⟨true, none⟩ ∧
      (login st username password remember tokenStr).1.user = some ⟨a.username, a.name⟩ ∧
      (login st username password remember tokenStr).1.token = some tokenStr) := by
  refine ⟨fun hf => by simp [login, hf], fun h2 => ?_, fun a hf => ?_⟩
  · cases hf : st.users.find? (fun u => u.username == username && u.password == password) with
    | none => rfl
    | some a => simp [login, hf] at h2
  · have hp := List.find?_some hf
    simp only [Bool.and_eq_true, beq_iff_eq] at hp
    refine ⟨hp.1, hp.2, ?_, ?_, ?_⟩ <;> cases remember <;> simp [login, hf, persistAuth]

/-- Witness for C4: in stDup, the right password logs in and a wrong
password fails with "Invalid credentials". -/
theorem login_invalid_credentials_iff_witness :
    (login stDup "a" "pw" false "t_x").2 = ⟨true, none⟩ ∧
    login stDup "a" "nope" false "t_x" = (stDup, ⟨false, some "Invalid credentials"⟩) :=
  ⟨((login_invalid_credentials_iff stDup "a" "pw" false "t_x").2.2
      ⟨"a", "pw", "A"⟩ (by decide)).2.2.1,
   (login_invalid_credentials_iff stDup "a" "nope" false "t_x").1 (by decide)⟩

/-- Claim C5: with nonempty username and password and a username not yet
registered, register then logout then login with the same credentials
succeeds. -/
theorem register_logout_login_roundtrip (st : St) (username password name : String)
    (r1 r2 : Bool) (s1 s2 : String) (hu : username ≠ "") (hp : password ≠ "")
    (hfresh : ∀ u ∈ st.users, u.username ≠ username) :
    (login (logout (register st username password name r1 ("t_" ++ s1)).1)
      username password r2 ("t_" ++ s2)).2 = ⟨true, none⟩ := by
  have h2 : st.users.any (fun u => u.username == username) = false := by
    rw [Bool.eq_false_iff]
    intro hc
    obtain ⟨u, hm, hbe⟩ := List.any_eq_true.mp hc
    exact hfresh u hm (by simpa using hbe)
  rw [register_success st username password name r1 ("t_" ++ s1) hu hp h2]
  have husers :
      (logout (persistAuth
        { st with
          users := st.users ++ [⟨username, password, name⟩]
          localStorage := { st.localStorage with
            usersVal := some (st.users ++ [⟨username, password, name⟩]) }
          user := some ⟨username, name⟩
          token := some ("t_" ++ s1) }
        ⟨username, name⟩ ("t_" ++ s1) r1)).users =
      st.users ++ [⟨username, password, name⟩] := by
    rw [show ∀ x : St, (logout x).users = x.users from fun _ => rfl, persistAuth_users]
  have hnone :
      st.users.find? (fun u => u.username == username && u.password == password) = none := by
    rw [List.find?_eq_none]
    intro x hx hpx
    simp only [Bool.and_eq_true, beq_iff_eq] at hpx
    exact hfresh x hx hpx.1
  have hfind :
      ((st.users ++ [(⟨username, password, name⟩ : Account)]).find?
        (fun u => u.username == username && u.password == password)) =
        some (⟨username, password, name⟩ : Account) := by
    rw [find?_append_none _ _ _ hnone]
    exact List.find?_cons_of_pos _ (by simp)
  simp [login, husers, hfind]

/-- Witness for C5: register "carol", log out, log in again — success. -/
theorem register_logout_login_roundtrip_witness :
    (login (logout (register st0 "carol" "pw9" "Carol" true ("t_" ++ "a")).1)
      "carol" "pw9" false ("t_" ++ "b")).2 = ⟨true, none⟩ :=
  register_logout_login_roundtrip st0 "carol" "pw9" "Carol" true false "a" "b"
    (by decide) (by decide) (by intro u hm; simp [st0, mount, emptyBackend] at hm)

/-- Claim C6: from every state, logout clears the in-memory user and
token, removes the auth pair from both backends, and afterwards
isAuthenticated is false.  logout returns nothing but the new state — in
the source it produces no result object at all, so it never reports a
failure result. -/
theorem logout_clears_everything (st : St) :
    (logout st).user = none ∧ (logout st).token = none ∧
    (logout st).localStorage.authUser = none ∧
    (logout st).localStorage.authToken = none ∧
    (logout st).sessionStorage.authUser = none ∧
    (logout st).sessionStorage.authToken = none ∧
    isAuthenticated (logout st) = false :=
  ⟨rfl, rfl, rfl, rfl, rfl, rfl, rfl⟩

/-- An environment in which sessionStorage.removeItem throws (e.g. storage
access disabled); every other primitive works. -/
def brokenSessionRemove : StorageFail := ⟨false, false, false, false, true, false⟩

/-- Counterexample to claim C7 as stated: logout's four removeItem calls
have no try/catch around them, so when sessionStorage.removeItem throws,
the exception propagates out of logout instead of being caught and
logged. -/
theorem logout_propagates_counterexample :
    (logoutE brokenSessionRemove st0).2 = true := by decide

/-- Claim C7 (amended): registry persistence, session persistence
(persistAuth) and the startup restore each wrap their storage access in
try/catch, so no storage failure propagates out of them; logout's storage
removals are unguarded, so a failing removeItem propagates out of
logout. -/
theorem storage_failures_caught_except_logout :
    (∀ (fl : StorageFail) (st : St) (u : PublicUser) (t : String) (r : Bool),
      (persistAuthE fl st u t r).2 = false) ∧
    (∀ (fl : StorageFail) (st : St), (persistUsersEffectE fl st).2 = false) ∧
    (∀ (fl : StorageFail) (lo se : Backend), (mountE fl lo se).2 = false) ∧
    (∀ (fl : StorageFail) (st : St), fl.sessionRemove = true →
      (logoutE fl st).2 = true) := by
  refine ⟨fun fl st u t r => rfl, fun fl st => rfl, fun fl lo se => rfl, fun fl st h => ?_⟩
  simp [logoutE, thenDo, sRemAuthUser, h]

/-- Witness for the amended C7 at a concrete broken environment and
state: logout propagates the storage exception. -/
theorem storage_failures_caught_except_logout_witness :
    (logoutE brokenSessionRemove stDup).2 = true :=
  storage_failures_caught_except_logout.2.2.2 brokenSessionRemove stDup rfl

/-- Claim C8: the startup initializers read the user and the token
preferring localStorage (the durable backend) and fall back to
sessionStorage only when localStorage has none; on the double-presence
state (both backends hold a pair) mount is well-defined and yields the
durable pair.  The hypotheses exclude a stored empty-string token, which
the program never writes (generated tokens start with "t_"; JS truthiness
would treat a stored "" as absent). -/
theorem restore_prefers_durable (lo se : Backend)
    (hl : lo.authToken ≠ some "") (hs : se.authToken ≠ some "") :
    ((mount lo se).user = if lo.authUser.isSome then lo.authUser else se.authUser) ∧
    ((mount lo se).token = if lo.authToken.isSome then lo.authToken else se.authToken) ∧
    (∀ (u u' : PublicUser) (t t' : String),
      lo.authUser = some u → lo.authToken = some t →
      se.authUser = some u' → se.authToken = some t' →
      (mount lo se).user = some u ∧ (mount lo se).token = some t) := by
  have htok : (mount lo se).token =
      if lo.authToken.isSome then lo.authToken else se.authToken := by
    cases hlo : lo.authToken with
    | some t =>
      have hne : t ≠ "" := fun h => hl (by rw [hlo, h])
      rw [show (mount lo se).token = jsOrNull lo.authToken se.authToken from rfl, hlo,
        jsOrNull_some_left hne]
      rfl
    | none =>
      cases hse : se.authToken with
      | some t' =>
        have hne : t' ≠ "" := fun h => hs (by rw [hse, h])
        rw [show (mount lo se).token = jsOrNull lo.authToken se.authToken from rfl, hlo,
          hse, jsOrNull_none_some hne]
        rfl
      | none =>
        rw [show (mount lo se).token = jsOrNull lo.authToken se.authToken from rfl, hlo, hse]
        rfl
  refine ⟨rfl, htok, fun u u' t t' hu ht hu' ht' => ⟨?_, ?_⟩⟩
  · rw [show (mount lo se).user =
      (if lo.authUser.isSome then lo.authUser else se.authUser) from rfl, hu]
    rfl
  · rw [htok, ht]
    rfl

/-- Witness for C8: both backends hold full pairs; restore picks the
durable one and does not fail. -/
theorem restore_prefers_durable_witness :
    (mount ⟨some ⟨"dur", "D"⟩, some "t_dur", some []⟩
      ⟨some ⟨"ses", "S"⟩, some "t_ses", none⟩).user = some ⟨"dur", "D"⟩ ∧
    (mount ⟨some ⟨"dur", "D"⟩, some "t_dur", some []⟩
      ⟨some ⟨"ses", "S"⟩, some "t_ses", none⟩).token = some "t_dur" :=
  (restore_prefers_durable
      ⟨some ⟨"dur", "D"⟩, some "t_dur", some []⟩
      ⟨some ⟨"ses", "S"⟩, some "t_ses", none⟩
      (by decide) (by decide)).2.2
    ⟨"dur", "D"⟩ ⟨"ses", "S"⟩ "t_dur" "t_ses" rfl rfl rfl rfl

/-- Claim C9: after a successful register the current public user is
exactly {username, name} of the created account, and after a successful
login it is exactly {username, name} of the matched account; the same
projection is what reaches the backend chosen by remember.  PublicUser has
no password field at all, so the password is stripped both in memory and
in storage. -/
theorem public_user_strips_password (st : St) (username password name : String)
    (remember : Bool) (tokenStr : String) :
    ((register st username password name remember tokenStr).2.success = true →
      (register st username password name remember tokenStr).1.user =
        some ⟨username, name⟩ ∧
      (if remember then
        (register st username password name remember tokenStr).1.localStorage.authUser =
          some ⟨username, name⟩
       else
        (register st username password name remember tokenStr).1.sessionStorage.authUser =
          some ⟨username, name⟩)) ∧
    (∀ a, st.users.find? (fun u => u.username == username && u.password == password) =
        some a →
      (login st username password remember tokenStr).1.user = some ⟨a.username, a.name⟩ ∧
      (if remember then
        (login st username password remember tokenStr).1.localStorage.authUser =
          some ⟨a.username, a.name⟩
       else
        (login st username password remember tokenStr).1.sessionStorage.authUser =
          some ⟨a.username, a.name⟩)) := by
  constructor
  · intro hs
    by_cases h1 : username = "" ∨ password = ""
    · simp [register, h1] at hs
    · by_cases h2 : st.users.any (fun u => u.username == username) = true
      · simp [register, h1, h2] at hs
      · cases remember <;> simp [register, h1, h2, persistAuth]
  · intro a hf
    cases remember <;> simp [login, hf, persistAuth]

/-- Witness for C9: registering "dave" with remember=false puts the
password-free projection in memory and in sessionStorage. -/
theorem public_user_strips_password_witness :
    (register st0 "dave" "pw" "Dave" false "t_x").1.user = some ⟨"dave", "Dave"⟩ ∧
    (register st0 "dave" "pw" "Dave" false "t_x").1.sessionStorage.authUser =
      some ⟨"dave", "Dave"⟩ := by
  have h := (public_user_strips_password st0 "dave" "pw" "Dave" false "t_x").1 (by decide)
  exact ⟨h.1, h.2⟩

/-- Claim C10: a successful login changes neither the in-memory users list
nor the users slot of either backend — only the session user/token cells
and the auth-pair storage keys are touched. -/
theorem login_users_frame (st : St) (username password : String) (remember : Bool)
    (tokenStr : String)
    (hs : (login st username password remember tokenStr).2.success = true) :
    (login st username password remember tokenStr).1.users = st.users ∧
    (login st username password remember tokenStr).1.localStorage.usersVal =
      st.localStorage.usersVal ∧
    (login st username password remember tokenStr).1.sessionStorage.usersVal =
      st.sessionStorage.usersVal := by
  cases hf : st.users.find? (fun u => u.username == username && u.password == password) with
  | none => simp [login, hf]
  | some a => cases remember <;> simp [login, hf, persistAuth]

/-- Witness for C10: logging in as "a" in stDup leaves the registry and
its persisted copy untouched. -/
theorem login_users_frame_witness :
    (login stDup "a" "pw" true "t_x").1.users = stDup.users ∧
    (login stDup "a" "pw" true "t_x").1.localStorage.usersVal =
      stDup.localStorage.usersVal ∧
    (login stDup "a" "pw" true "t_x").1.sessionStorage.usersVal =
      stDup.sessionStorage.usersVal :=
  login_users_frame stDup "a" "pw" true "t_x" (by decide)

end ReactAuth
